import Mathlib

/-!
Shallow embedding of the py-trade-bot trading core: the trade cycle in
trade_manager.py, the risk guard in risk_guard.py, the signal parser in
signal_engine.py, position closing in trade_executor.py, the daily
investment accumulator in db_service.py, and news ranking in
news_fetcher.py.  Money and prices are rationals.
-/

namespace TradeBot

/-! ### trade_manager.py -/

/-- Result object returned by the broker from a successful order
(mt5.order_send): assigned ticket and fill price. -/
structure OrderResult where
  order : Nat
  price : ℚ
deriving DecidableEq

/-- Inputs of one decision cycle of TradeManager.process_trades: the signal
returned by the signal engine, today's cumulative invested amount read from
the DailyInvestment table, the live currency price, and what place_trade
would return for this cycle (none models a falsy result / no order field). -/
structure CycleEnv where
  signal : String
  invested : ℚ
  currencyPrice : ℚ
  tradeResult : Option OrderResult
deriving DecidableEq

/-- Observable outcome of one TradeManager.process_trades cycle: the order
handed to place_trade (none when place_trade is not called), the cumulative
daily investment after the cycle, whether the signal row was marked
executed, and whether a Trade row was created. -/
structure CycleResult where
  placedOrder : Option (String × ℚ)
  investedAfter : ℚ
  signalExecuted : Bool
  tradeRecorded : Bool
deriving DecidableEq

/-- TradeManager.check_daily_limit: returns (limit_reached, remaining_budget).
If today's invested amount is at or above the configured ceiling the limit is
reached with zero headroom, otherwise the headroom is ceiling minus
invested. -/
def check_daily_limit (limit invested : ℚ) : Bool × ℚ :=
  if invested ≥ limit then (true, 0)
  else (false, limit - invested)

/-- The position sizer of TradeManager.process_trades (line 82):
lot_size = min(BASE_LOT, remaining_budget / (currency_price * 1000)). -/
def lot_size_calc (baseLot remaining price : ℚ) : ℚ :=
  min baseLot (remaining / (price * 1000))

/-- TradeManager.process_trades, lines 72-110: on a BUY/SELL signal, check the
daily limit (return without trading when reached), size the lot from the
remaining budget, call place_trade, unconditionally add
lot * price * 1000 to today's DailyInvestment, unconditionally mark the
signal executed, and record a Trade row only when the broker result is
present. -/
def process_trades (limit baseLot : ℚ) (env : CycleEnv) : CycleResult :=
  if env.signal = "BUY" ∨ env.signal = "SELL" then
    if (check_daily_limit limit env.invested).1 then
      ⟨none, env.invested, false, false⟩
    else
      let lot := lot_size_calc baseLot (check_daily_limit limit env.invested).2 env.currencyPrice
      ⟨some (env.signal, lot),
       env.invested + lot * env.currencyPrice * 1000,
       true,
       env.tradeResult.isSome⟩
  else
    ⟨none, env.invested, false, false⟩

/-- C1 counterexample: with headroom 20, base lot 0.01 and live price 1.10 the
code's sizer returns 0.01, whose notional at multiplier 100000 is 1100 > 20,
and 0.01 exceeds 20 / (1.10 * 100000); the claimed contract multiplier 100000
does not match the code, which divides by currency_price * 1000. -/
theorem lot_size_multiplier_cex :
    lot_size_calc (1/100) 20 (11/10) * (11/10) * 100000 > 20 ∧
      ¬ lot_size_calc (1/100) 20 (11/10) ≤ 20 / ((11/10) * 100000) := by
  constructor <;> norm_num [lot_size_calc]

/-- C1 (amended): the sizer computes min(base_lot, remaining / (price * 1000))
with contract multiplier 1000; for remaining_budget ≥ 0 and price > 0 the
resulting lot times price times 1000 never exceeds the remaining budget, and
the lot never exceeds the base lot. -/
theorem lot_size_bounded (baseLot remaining price : ℚ)
    (_hr : 0 ≤ remaining) (hp : 0 < price) :
    lot_size_calc baseLot remaining price * price * 1000 ≤ remaining ∧
      lot_size_calc baseLot remaining price ≤ baseLot := by
  refine ⟨?_, min_le_left _ _⟩
  have h1000 : (0:ℚ) < price * 1000 := by positivity
  have hle : lot_size_calc baseLot remaining price ≤ remaining / (price * 1000) :=
    min_le_right _ _
  have := mul_le_mul_of_nonneg_right hle h1000.le
  rw [div_mul_cancel₀ _ h1000.ne'] at this
  calc lot_size_calc baseLot remaining price * price * 1000
      = lot_size_calc baseLot remaining price * (price * 1000) := by ring
    _ ≤ remaining := this

/-- Witness for C1 at the spec's scenario values. -/
theorem lot_size_bounded_witness :
    lot_size_calc (1/100) 20 (11/10) * (11/10) * 1000 ≤ 20 ∧
      lot_size_calc (1/100) 20 (11/10) ≤ 1/100 :=
  lot_size_bounded (1/100) 20 (11/10) (by norm_num) (by norm_num)

/-- C7: when today's cumulative investment is at or above the daily ceiling,
process_trades places no order at all (place_trade is never called). -/
theorem daily_limit_blocks_order (limit baseLot : ℚ) (env : CycleEnv)
    (h : limit ≤ env.invested) :
    (process_trades limit baseLot env).placedOrder = none := by
  by_cases hs : env.signal = "BUY" ∨ env.signal = "SELL" <;>
    simp [process_trades, check_daily_limit, hs, h]

/-- Witness for C7: invested 25 against ceiling 20 with a BUY signal yields no
order. -/
theorem daily_limit_blocks_order_witness :
    (process_trades 20 (1/100) ⟨"BUY", 25, 11/10, none⟩).placedOrder = none :=
  daily_limit_blocks_order 20 (1/100) ⟨"BUY", 25, 11/10, none⟩ (by norm_num)

/-- C3 counterexample: a BUY cycle under the limit whose place_trade result is
None still marks the signal executed, refuting the claim that the executed
flag stays false when no fill is confirmed. -/
theorem signal_executed_cex :
    (process_trades 20 (1/100) ⟨"BUY", 0, 11/10, none⟩).signalExecuted = true ∧
      (⟨"BUY", 0, 11/10, none⟩ : CycleEnv).tradeResult = none := by
  constructor
  · norm_num [process_trades, check_daily_limit]
  · rfl

/-- C3 (amended): process_trades marks the signal executed exactly when the
signal is BUY or SELL and the daily limit is not reached — i.e. whenever order
placement is attempted — regardless of whether place_trade confirmed a fill,
failed, or returned None. -/
theorem signal_executed_iff (limit baseLot : ℚ) (env : CycleEnv) :
    (process_trades limit baseLot env).signalExecuted = true ↔
      (env.signal = "BUY" ∨ env.signal = "SELL") ∧ env.invested < limit := by
  unfold process_trades check_daily_limit
  by_cases hs : env.signal = "BUY" ∨ env.signal = "SELL" <;>
    by_cases hl : env.invested ≥ limit <;>
      simp [hs, hl, lt_iff_not_ge]

/-- C10: on a BUY/SELL cycle under the daily limit, today's DailyInvestment is
increased by lot_size * currency_price * 1000 for every possible place_trade
result (successful fill, failure result, or None alike). -/
theorem invested_charged_regardless (limit baseLot : ℚ) (env : CycleEnv)
    (h1 : env.signal = "BUY" ∨ env.signal = "SELL")
    (h2 : env.invested < limit) :
    ∀ r : Option OrderResult,
      (process_trades limit baseLot { env with tradeResult := r }).investedAfter
        = env.invested +
            lot_size_calc baseLot (limit - env.invested) env.currencyPrice
              * env.currencyPrice * 1000 := by
  intro r
  unfold process_trades check_daily_limit
  simp [h1, not_le.mpr h2]

/-- Witness for C10: with ceiling 20, nothing invested yet and price 1.10, the
charge is the same whether the broker returned a fill or None. -/
theorem invested_charged_regardless_witness :
    (process_trades 20 (1/100) ⟨"BUY", 0, 11/10, none⟩).investedAfter
      = 0 + lot_size_calc (1/100) (20 - 0) (11/10) * (11/10) * 1000 :=
  invested_charged_regardless 20 (1/100) ⟨"BUY", 0, 11/10, none⟩
    (Or.inl rfl) (by norm_num) none

/-! ### risk_guard.py -/

/-- The trade action taken inside check_news_risk after the LLM decision. -/
inductive RiskAction where
  | closeAll
  | placeBuy
  | noAction
deriving DecidableEq

/-- The action block of check_news_risk (risk_guard.py lines 66-74): when the
decision is high-risk, close all trades if there are open positions; when it
is not high-risk and there are no open positions, place a BUY; otherwise do
nothing.  Positions are represented by their tickets. -/
def risk_action (decision : Bool) (positions : List Nat) : RiskAction :=
  if decision then
    if positions.isEmpty then .noAction else .closeAll
  else
    if positions.isEmpty then .placeBuy else .noAction

/-- C2 counterexample: with the risk decision true and zero open positions,
check_news_risk takes no trade action at all — in particular it does not
place a BUY. -/
theorem risk_buy_cex :
    risk_action true [] = RiskAction.noAction ∧
      risk_action true [] ≠ RiskAction.placeBuy := by
  constructor <;> decide

/-- C2 (amended): check_news_risk places a BUY exactly when the risk decision
is false and the broker reports zero open positions; on a true decision with
zero positions nothing is opened or closed. -/
theorem risk_buy_iff (decision : Bool) (positions : List Nat) :
    risk_action decision positions = RiskAction.placeBuy ↔
      decision = false ∧ positions = [] := by
  cases decision <;> cases positions <;> simp [risk_action]

/-! ### signal_engine.py -/

/-- Python str.upper(), character by character. -/
def upperStr (s : String) : String :=
  String.mk (s.data.map Char.toUpper)

/-- Whether the pattern is a prefix of the character list. -/
def prefixMatch : List Char → List Char → Bool
  | [], _ => true
  | _ :: _, [] => false
  | a :: pat, b :: s => a == b && prefixMatch pat s

/-- Whether the pattern occurs as a contiguous run in the character list. -/
def substrMatch (pat : List Char) : List Char → Bool
  | [] => prefixMatch pat []
  | b :: s => prefixMatch pat (b :: s) || substrMatch pat s

/-- Python's containment test tok in s on strings. -/
def containsTok (tok s : String) : Bool :=
  substrMatch tok.data s.data

/-- The decision extraction of get_trade_signal (signal_engine.py lines
95-103): upper-case the response, return BUY if it contains "BUY", else SELL
if it contains "SELL", else NO TRADE. -/
def parse_signal (content : String) : String :=
  let result := upperStr content
  if containsTok "BUY" result then "BUY"
  else if containsTok "SELL" result then "SELL"
  else "NO TRADE"

/-- get_trade_signal's outcome as a function of the LLM call's outcome: the
call to client.chat.completions.create is not wrapped in any try/except, so a
raised exception propagates to the caller; only a successful response is
parsed. -/
def get_trade_signal (resp : Except Unit String) : Except Unit String :=
  match resp with
  | .ok content => .ok (parse_signal content)
  | .error e => .error e

/-- C4 counterexample: when the LLM API call fails, get_trade_signal
propagates the exception instead of resolving to "NO TRADE". -/
theorem trade_signal_failure_cex :
    get_trade_signal (.error ()) = .error () ∧
      get_trade_signal (.error ()) ≠ .ok "NO TRADE" :=
  ⟨rfl, fun h => Except.noConfusion h⟩

/-- C4 (amended): on a successful response get_trade_signal returns BUY if the
upper-cased text contains "BUY" (checked first), else SELL if it contains
"SELL", else "NO TRADE" — including the spec's three examples — but an API
failure propagates as an exception rather than resolving to "NO TRADE". -/
theorem trade_signal_parse_spec :
    (∀ s : String, containsTok "BUY" (upperStr s) = true →
      get_trade_signal (.ok s) = .ok "BUY") ∧
    (∀ s : String, containsTok "BUY" (upperStr s) = false →
      containsTok "SELL" (upperStr s) = true →
      get_trade_signal (.ok s) = .ok "SELL") ∧
    (∀ s : String, containsTok "BUY" (upperStr s) = false →
      containsTok "SELL" (upperStr s) = false →
      get_trade_signal (.ok s) = .ok "NO TRADE") ∧
    (∀ e : Unit, get_trade_signal (.error e) = .error e) ∧
    get_trade_signal (.ok "I think we should BUY now") = .ok "BUY" ∧
    get_trade_signal (.ok "Definitely SELL here") = .ok "SELL" ∧
    get_trade_signal (.ok "unclear, maybe hold") = .ok "NO TRADE" := by
  refine ⟨?_, ?_, ?_, fun e => rfl, rfl, rfl, rfl⟩
  · intro s h
    simp [get_trade_signal, parse_signal, h]
  · intro s h1 h2
    simp [get_trade_signal, parse_signal, h1, h2]
  · intro s h1 h2
    simp [get_trade_signal, parse_signal, h1, h2]

/-- Witness for C4 at concrete responses discharging the containment
hypotheses. -/
theorem trade_signal_parse_spec_witness :
    get_trade_signal (.ok "go BUY it") = .ok "BUY" ∧
      get_trade_signal (.ok "just sell it") = .ok "SELL" ∧
      get_trade_signal (.ok "hold on") = .ok "NO TRADE" :=
  ⟨trade_signal_parse_spec.1 "go BUY it" (by decide),
   trade_signal_parse_spec.2.1 "just sell it" (by decide) (by decide),
   trade_signal_parse_spec.2.2.1 "hold on" (by decide) (by decide)⟩

/-! ### risk_guard.py: LLM decision parsing -/

/-- Outcome of the risk-check LLM call in check_news_risk: the call raised,
returned an empty choice list, or returned message content. -/
inductive RiskLLM where
  | raised
  | emptyChoices
  | content (s : String)

/-- Python str.strip(): drop leading and trailing whitespace characters. -/
def trimStr (s : String) : String :=
  String.mk (((s.data.dropWhile Char.isWhitespace).reverse.dropWhile
    Char.isWhitespace).reverse)

/-- Python str.split() with no separator: split on runs of whitespace,
producing no empty words.  The accumulator holds the current word
reversed. -/
def splitWs : List Char → List Char → List String
  | [], acc => if acc.isEmpty then [] else [String.mk acc.reverse]
  | c :: cs, acc =>
    if c.isWhitespace then
      if acc.isEmpty then splitWs cs [] else String.mk acc.reverse :: splitWs cs []
    else splitWs cs (c :: acc)

/-- The normalized result string of check_news_risk (risk_guard.py lines
30-41): the stripped upper-cased content on success, the empty string when
the choice list is empty, and "NO" when the call raised. -/
def risk_result : RiskLLM → String
  | .raised => "NO"
  | .emptyChoices => ""
  | .content s => upperStr (trimStr s)

/-- Python's result.split()[:3]: the first three whitespace-separated words. -/
def first_words (s : String) : List String :=
  (splitWs s.data []).take 3

/-- The decision of check_news_risk (line 43-44): whether any of the first
three words of the normalized result contains "YES". -/
def risk_decision (o : RiskLLM) : Bool :=
  (first_words (risk_result o)).any (fun w => containsTok "YES" w)

/-- check_news_risk's return value: False when the surrounding try/except
catches an unhandled error, and otherwise the parsed decision (every MT5
branch returns the decision unchanged). -/
def check_news_risk (outerRaised : Bool) (o : RiskLLM) : Bool :=
  if outerRaised then false else risk_decision o

/-- C5: check_news_risk returns False on an unhandled error, when the LLM call
raised, when the choice list is empty, and whenever no word among the first
three of the normalized response contains "YES". -/
theorem check_news_risk_default_false :
    (∀ o : RiskLLM, check_news_risk true o = false) ∧
    check_news_risk false .raised = false ∧
    check_news_risk false .emptyChoices = false ∧
    (∀ s : String,
      (first_words (upperStr (trimStr s))).all
          (fun w => !(containsTok "YES" w)) = true →
      check_news_risk false (.content s) = false) := by
  refine ⟨fun o => rfl, by decide, by decide, ?_⟩
  intro s h
  show risk_decision (.content s) = false
  rw [risk_decision, List.any_eq_false]
  intro w hw
  have hw2 := List.all_eq_true.mp h w hw
  simp only [Bool.not_eq_true'] at hw2
  simp [hw2]

/-- Witness for C5: a response with no YES token in its first three words
yields False. -/
theorem check_news_risk_default_false_witness :
    check_news_risk false (.content "no risk at all") = false :=
  check_news_risk_default_false.2.2.2 "no risk at all" (by decide)

/-! ### db_service.py: daily investment accumulation -/

/-- db_service.get_daily_investment: the amount of the first DailyInvestment
record for the date, or 0.0 when there is none.  The table is modelled as a
list of (date, amount) records in insertion order; dates are day indices. -/
def get_daily_investment : List (Nat × ℚ) → Nat → ℚ
  | [], _ => 0
  | r :: rest, d => if r.1 = d then r.2 else get_daily_investment rest d

/-- db_service.update_daily_investment (lines 101-117): the first record for
the date gets amount += amount; when there is none, a new record with that
amount is appended. -/
def update_daily_investment : List (Nat × ℚ) → Nat → ℚ → List (Nat × ℚ)
  | [], d, a => [(d, a)]
  | r :: rest, d, a =>
    if r.1 = d then (r.1, r.2 + a) :: rest
    else r :: update_daily_investment rest d a

/-- Updating a date adds to the stored amount read back for that date. -/
theorem get_update_daily (db : List (Nat × ℚ)) (d : Nat) (a : ℚ) :
    get_daily_investment (update_daily_investment db d a) d
      = get_daily_investment db d + a := by
  induction db with
  | nil => simp [update_daily_investment, get_daily_investment]
  | cons r rest ih =>
    by_cases h : r.1 = d <;>
      simp [update_daily_investment, get_daily_investment, h, ih]

/-- Updating a date leaves exactly one record for it when there was at most
one before (and exactly one when there was none). -/
theorem countP_update_daily_self (db : List (Nat × ℚ)) (d : Nat) (a : ℚ) :
    ((update_daily_investment db d a).countP (fun r => r.1 = d))
      = max (db.countP (fun r => r.1 = d)) 1 := by
  induction db with
  | nil => simp [update_daily_investment]
  | cons r rest ih =>
    by_cases h : r.1 = d <;>
      simp [update_daily_investment, List.countP_cons, h, ih]

/-- Updating one date never touches the record count of another date. -/
theorem countP_update_daily_other (db : List (Nat × ℚ)) (d : Nat) (a : ℚ)
    (d2 : Nat) (h2 : d2 ≠ d) :
    ((update_daily_investment db d a).countP (fun r => r.1 = d2))
      = db.countP (fun r => r.1 = d2) := by
  induction db with
  | nil => simp [update_daily_investment, Ne.symm h2]
  | cons r rest ih =>
    by_cases h : r.1 = d <;>
      simp [update_daily_investment, List.countP_cons, h, ih]

/-- C8: update_daily_investment accumulates rather than replaces — updating a
date adds the amount to the stored value, two sequential 5.0 updates leave
10.0, a non-negative update never decreases the stored amount, and the table
keeps exactly one record for the updated date (at most one per date being
preserved) while other dates' record counts are untouched. -/
theorem daily_investment_accumulates :
    (∀ (db : List (Nat × ℚ)) (d : Nat) (a : ℚ),
      get_daily_investment (update_daily_investment db d a) d
        = get_daily_investment db d + a) ∧
    get_daily_investment
        (update_daily_investment (update_daily_investment [] 0 5) 0 5) 0 = 10 ∧
    (∀ (db : List (Nat × ℚ)) (d : Nat) (a : ℚ), 0 ≤ a →
      get_daily_investment db d
        ≤ get_daily_investment (update_daily_investment db d a) d) ∧
    (∀ (db : List (Nat × ℚ)) (d : Nat) (a : ℚ),
      db.countP (fun r => r.1 = d) ≤ 1 →
      (update_daily_investment db d a).countP (fun r => r.1 = d) = 1) ∧
    (∀ (db : List (Nat × ℚ)) (d : Nat) (a : ℚ) (d2 : Nat), d2 ≠ d →
      (update_daily_investment db d a).countP (fun r => r.1 = d2)
        = db.countP (fun r => r.1 = d2)) := by
  refine ⟨get_update_daily, by norm_num [update_daily_investment, get_daily_investment],
    ?_, ?_, fun db d a d2 h2 => countP_update_daily_other db d a d2 h2⟩
  · intro db d a ha
    rw [get_update_daily]
    linarith
  · intro db d a h
    rw [countP_update_daily_self]
    omega

/-- Witness for C8: two updates of 5.0 on day 0 leave 10.0, the second update
does not decrease the amount, and the day ends with exactly one record. -/
theorem daily_investment_accumulates_witness :
    get_daily_investment [(0, (5:ℚ))] 0
        ≤ get_daily_investment (update_daily_investment [(0, (5:ℚ))] 0 5) 0 ∧
      (update_daily_investment [(0, (5:ℚ))] 0 5).countP (fun r => r.1 = 0) = 1 ∧
      (update_daily_investment [(0, (5:ℚ))] 0 5).countP (fun r => r.1 = 7)
        = ([(0, (5:ℚ))]).countP (fun r => r.1 = 7) :=
  ⟨daily_investment_accumulates.2.2.1 [(0, 5)] 0 5 (by norm_num),
   daily_investment_accumulates.2.2.2.1 [(0, 5)] 0 5 (by decide),
   daily_investment_accumulates.2.2.2.2 [(0, 5)] 0 5 7 (by decide)⟩

/-! ### trade_executor.py: close_all_trades -/

/-- An open broker position as reported by mt5.positions_get: ticket, type
(0 = BUY, otherwise SELL), volume and current profit. -/
structure BrokerPos where
  ticket : Nat
  ptype : Nat
  volume : ℚ
  profit : ℚ
deriving DecidableEq

/-- The current quote used to price the opposing close order. -/
structure Tick where
  bid : ℚ
  ask : ℚ
deriving DecidableEq

/-- A persisted Trade row, keyed by ticket in the database model. -/
structure TradeRec where
  price_open : ℚ
  price_close : Option ℚ
  profit : ℚ
  is_active : Bool
deriving DecidableEq

/-- db_service.close_trade: the Trade with this ticket (tickets are a unique
column) gets price_close, profit and is_active updated; no row, no change. -/
def close_trade (db : Nat → Option TradeRec) (ticket : Nat)
    (price profit : ℚ) : Nat → Option TradeRec :=
  fun t =>
    if t = ticket then
      (db t).map (fun r =>
        { r with price_close := some price, profit := profit, is_active := false })
    else db t

/-- The price of the opposing market order in close_all_trades: bid to close
a BUY (pos.type == 0), ask to close a SELL. -/
def close_price (tick : Tick) (pos : BrokerPos) : ℚ :=
  if pos.ptype = 0 then tick.bid else tick.ask

/-- trade_executor.close_all_trades (lines 68-103): for every open position an
opposing order is sent; done says whether the broker confirmed the closure of
a given ticket (result truthy with retcode DONE).  Only confirmed closures
update the database; a failed closure changes nothing and the loop moves on
to the next position. -/
def close_all_trades (done : Nat → Bool) (tick : Tick) :
    List BrokerPos → (Nat → Option TradeRec) → Nat → Option TradeRec
  | [], db => db
  | pos :: rest, db =>
    close_all_trades done tick rest
      (if done pos.ticket then
        close_trade db pos.ticket (close_price tick pos) pos.profit
       else db)

/-- Tickets not named by any processed position keep their database record. -/
theorem close_all_trades_untouched (done : Nat → Bool) (tick : Tick)
    (positions : List BrokerPos) (db : Nat → Option TradeRec) (t : Nat)
    (h : ∀ p ∈ positions, p.ticket ≠ t) :
    close_all_trades done tick positions db t = db t := by
  induction positions generalizing db with
  | nil => rfl
  | cons pos rest ih =>
    have hpos : pos.ticket ≠ t := h pos (List.mem_cons_self _ _)
    have hrest : ∀ p ∈ rest, p.ticket ≠ t := fun p hp => h p (List.mem_cons_of_mem _ hp)
    rw [close_all_trades, ih _ hrest]
    by_cases hd : done pos.ticket
    · simp [hd, close_trade, Ne.symm hpos]
    · simp [hd]

/-- C6: in close_all_trades each confirmed closure is applied independently of
every other position's outcome — for any pattern of failures among the other
positions, a position whose opposing order is confirmed done has its Trade
row updated to closed with close price the opposing-order execution price and
profit the broker-reported profit of the position. -/
theorem close_all_trades_independent (done : Nat → Bool) (tick : Tick)
    (positions : List BrokerPos) (db : Nat → Option TradeRec) (p : BrokerPos)
    (hmem : p ∈ positions)
    (hnodup : (positions.map BrokerPos.ticket).Nodup)
    (hdone : done p.ticket = true) :
    close_all_trades done tick positions db p.ticket
      = (db p.ticket).map (fun r =>
          { r with price_close := some (close_price tick p),
                   profit := p.profit, is_active := false }) := by
  revert hmem hnodup
  induction positions generalizing db with
  | nil => intro hmem _; cases hmem
  | cons pos rest ih =>
    intro hmem hnodup
    have hhead := (List.nodup_cons.mp hnodup).1
    have htail := (List.nodup_cons.mp hnodup).2
    rcases List.mem_cons.mp hmem with heq | hmem2
    · subst heq
      have hrest : ∀ q ∈ rest, q.ticket ≠ p.ticket := by
        intro q hq hEq
        exact hhead (hEq ▸ List.mem_map_of_mem _ hq)
      rw [close_all_trades, hdone, if_pos rfl,
        close_all_trades_untouched _ _ _ _ _ hrest, close_trade]
      simp
    · have hne : pos.ticket ≠ p.ticket := by
        intro hEq
        exact hhead (hEq ▸ List.mem_map_of_mem _ hmem2)
      rw [close_all_trades, ih _ hmem2 htail]
      by_cases hd : done pos.ticket
      · simp [hd, close_trade, Ne.symm hne]
      · simp [hd]

/-- Witness for C6: the first position's closure fails, the second is
confirmed, and the second's Trade row still ends up closed at the ask with
the broker profit. -/
theorem close_all_trades_independent_witness :
    close_all_trades (fun t => t == 2) ⟨10, 11⟩
        [⟨1, 0, 1, 5⟩, ⟨2, 1, 1, -3⟩]
        (fun t => if t = 2 then some ⟨9, none, 0, true⟩ else none) 2
      = some ⟨9, some 11, -3, false⟩ := by
  rw [close_all_trades_independent (fun t => t == 2) ⟨10, 11⟩
      [⟨1, 0, 1, 5⟩, ⟨2, 1, 1, -3⟩]
      (fun t => if t = 2 then some ⟨9, none, 0, true⟩ else none)
      ⟨2, 1, 1, -3⟩ (by decide) (by decide) (by decide)]
  rfl

/-! ### news_fetcher.py: format_calendar_events ranking -/

/-- A calendar event after date parsing: its impact label and its parsed
timestamp in seconds (none when fromisoformat raised and the event got
time_proximity infinity). -/
structure CalEvent where
  impact : String
  time : Option ℤ
deriving DecidableEq

/-- The impact_priority table of format_calendar_events (line 92):
High 3, Medium 2, Low 1, anything else (including unlabeled) 0. -/
def impact_priority (s : String) : ℕ :=
  if s = "High" then 3 else if s = "Medium" then 2
  else if s = "Low" then 1 else 0

/-- The time_proximity of an event (lines 85 and 89): absolute distance in
seconds from now, infinity (modelled as none) for unparseable dates. -/
def time_proximity (now : ℤ) (e : CalEvent) : Option ℕ :=
  e.time.map (fun t => (t - now).natAbs)

/-- Order on proximities with none as infinity: everything is below none, and
finite proximities compare as naturals. -/
def prox_le : Option ℕ → Option ℕ → Bool
  | _, none => true
  | none, some _ => false
  | some a, some b => a ≤ b

/-- The sort key comparison of format_calendar_events (lines 95-98): Python's
ascending sort on the tuple (-impact_priority, time_proximity), i.e. higher
impact first and, on equal impact, smaller proximity first. -/
def event_key (now : ℤ) (e1 e2 : CalEvent) : Bool :=
  decide (impact_priority e2.impact < impact_priority e1.impact) ||
    (decide (impact_priority e1.impact = impact_priority e2.impact) &&
      prox_le (time_proximity now e1) (time_proximity now e2))

/-- The ranking relation induced by the sort key. -/
def event_le (now : ℤ) (e1 e2 : CalEvent) : Prop :=
  event_key now e1 e2 = true

instance (now : ℤ) : DecidableRel (event_le now) :=
  fun e1 e2 => instDecidableEqBool (event_key now e1 e2) true

/-- The sorted event list of format_calendar_events; Python's stable sorted()
is modelled by a stable insertion sort over the same key order. -/
def sort_events (now : ℤ) (events : List CalEvent) : List CalEvent :=
  List.insertionSort (event_le now) events

theorem prox_le_total (x y : Option ℕ) : prox_le x y = true ∨ prox_le y x = true := by
  cases x <;> cases y <;> simp [prox_le]
  omega

theorem prox_le_trans {x y z : Option ℕ} (h1 : prox_le x y = true)
    (h2 : prox_le y z = true) : prox_le x z = true := by
  cases x <;> cases y <;> cases z <;> simp_all [prox_le]
  omega

instance (now : ℤ) : IsTotal CalEvent (event_le now) := ⟨by
  intro a b
  unfold event_le event_key
  simp only [Bool.or_eq_true, Bool.and_eq_true, decide_eq_true_eq]
  rcases Nat.lt_trichotomy (impact_priority a.impact) (impact_priority b.impact)
    with h | h | h
  · right; left; exact h
  · rcases prox_le_total (time_proximity now a) (time_proximity now b) with hp | hp
    · left; right; exact ⟨h, hp⟩
    · right; right; exact ⟨h.symm, hp⟩
  · left; left; exact h⟩

instance (now : ℤ) : IsTrans CalEvent (event_le now) := ⟨by
  intro a b c hab hbc
  unfold event_le event_key at *
  simp only [Bool.or_eq_true, Bool.and_eq_true, decide_eq_true_eq] at *
  rcases hab with h1 | ⟨h1, hp1⟩ <;> rcases hbc with h2 | ⟨h2, hp2⟩
  · left; omega
  · left; omega
  · left; omega
  · right; exact ⟨by omega, prox_le_trans hp1 hp2⟩⟩

/-- C9 counterexample: an unparseable-timestamp High event does not sort last;
it ranks above a parseable Low event, because impact is compared first and
the infinite proximity only applies within an impact tier. -/
theorem sort_events_unparseable_cex :
    sort_events 0 [⟨"Low", some 3600⟩, ⟨"High", none⟩]
        = [⟨"High", none⟩, ⟨"Low", some 3600⟩] ∧
      (sort_events 0 [⟨"Low", some 3600⟩, ⟨"High", none⟩]).getLast?
        = some ⟨"Low", some 3600⟩ ∧
      (⟨"High", none⟩ : CalEvent).time = none := by
  refine ⟨?_, ?_, rfl⟩ <;> decide

/-- C9 (amended): format_calendar_events ranks by impact level descending
(High > Medium > Low > unlabeled) and, among events of equal impact, by
proximity of the event time to now with the closest first and events with
unparseable timestamps last within their impact tier (not globally last); the
emitted order is sorted under this key — in particular, in the spec's
scenario the High event one hour away ranks above the High event five hours
away and both rank above the Low event. -/
theorem sort_events_ranking :
    (∀ (now : ℤ) (events : List CalEvent),
      List.Sorted (event_le now) (sort_events now events)) ∧
    (∀ (now : ℤ) (e1 e2 : CalEvent),
      impact_priority e2.impact < impact_priority e1.impact →
      event_le now e1 e2) ∧
    (∀ (now : ℤ) (e1 e2 : CalEvent),
      impact_priority e1.impact = impact_priority e2.impact →
      prox_le (time_proximity now e1) (time_proximity now e2) = true →
      event_le now e1 e2) ∧
    (∀ (now : ℤ) (e1 e2 : CalEvent),
      impact_priority e1.impact = impact_priority e2.impact →
      e2.time = none → event_le now e1 e2) ∧
    sort_events 0 [⟨"Low", some 3600⟩, ⟨"High", some 18000⟩, ⟨"High", some 3600⟩]
      = [⟨"High", some 3600⟩, ⟨"High", some 18000⟩, ⟨"Low", some 3600⟩] := by
  refine ⟨fun now events => List.sorted_insertionSort _ _, ?_, ?_, ?_, by decide⟩
  · intro now e1 e2 h
    unfold event_le event_key
    simp [h]
  · intro now e1 e2 h hp
    unfold event_le event_key
    simp [h, hp]
  · intro now e1 e2 h ht
    unfold event_le event_key
    simp [h, time_proximity, ht, prox_le]

/-- Witness for C9: a High event outranks a Low one, a closer event outranks a
farther one of equal impact, and a parseable Medium event outranks an
unparseable Medium one. -/
theorem sort_events_ranking_witness :
    event_le 0 ⟨"High", some 5⟩ ⟨"Low", some 5⟩ ∧
      event_le 0 ⟨"High", some 5⟩ ⟨"High", some 90⟩ ∧
      event_le 0 ⟨"Medium", some 5⟩ ⟨"Medium", none⟩ :=
  ⟨sort_events_ranking.2.1 0 ⟨"High", some 5⟩ ⟨"Low", some 5⟩ (by decide),
   sort_events_ranking.2.2.1 0 ⟨"High", some 5⟩ ⟨"High", some 90⟩ (by decide) (by decide),
   sort_events_ranking.2.2.2.1 0 ⟨"Medium", some 5⟩ ⟨"Medium", none⟩ (by decide) rfl⟩

end TradeBot
